import Mathlib

/-!
Verification of the AirNavX bridge extension core: the discovery sweep over
host/port candidates, the per-layer detection caches, the fallback-attempt
fetch-by-id strategy, the generic pass-through call builder, and the
correlated request/response relay protocol.

The development shallowly embeds the three JavaScript contexts:
* namespace `Content` models the content script (the relay): its 30 s
  detection cache, the seven-entry fallback attempt list, and the
  window-message bridge listener.
* namespace `Background` models the background service worker (the
  coordinator): its 5 min detection cache, `fetchFromAirNavX`, and the
  `chrome.runtime.onMessage` dispatcher.
* namespace `Injected` models the page-side client (`injected.js`): the
  pending-request map keyed by correlation id, the response listener, and
  the 30 s timeout.

Network and HTTP effects are modelled by oracles: a `Net` function gives the
outcome of probing each (host, port) pair, and attempt oracles give the
outcome of the i-th HTTP request issued by a call.  Each modelled operation
returns, next to its result and updated state, the list of probes or
requests it issued, so that statements about performed network I/O are
statements about those lists.
-/

namespace AirNavX

/-- Truthiness of an optional string, as JavaScript sees it: `undefined`
and the empty string are falsy, every other string is truthy. -/
def strTruthy : Option String → Bool
  | none => false
  | some s => !s.isEmpty

/-- HTTP methods used by the bridge. -/
inductive HttpMethod
  | GET
  | POST
  | PUT
deriving DecidableEq

/-- Minimal JSON values appearing in request bodies. -/
inductive JVal
  | jstr (s : String)
  | jbool (b : Bool)
deriving DecidableEq

/-- A JSON object body: a list of key/value fields.  `[]` is the empty
object `\x7b\x7d`. -/
abbrev JBody := List (String × JVal)

/-- An HTTP request as issued by the bridge: target URL, method, and the
optional JSON body that was attached. -/
structure HttpRequest where
  url : String
  method : HttpMethod
  body : Option JBody
deriving DecidableEq

/-- Outcome of probing one (host, port) pair with the short-timeout GET:
the response was 2xx, the response was non-2xx, or fetch threw (connection
refused / abort). -/
inductive ProbeOutcome
  | ok
  | httpFail
  | netError
deriving DecidableEq

/-- The network as seen by a single discovery sweep: the outcome of probing
each (host, port) pair. -/
abbrev Net := String → Nat → ProbeOutcome

/-- A discovered endpoint. -/
structure Endpoint where
  host : String
  port : Nat
deriving DecidableEq

/-- The host-major pair ordering of the nested `for` loops in both
`detectAirNavX` implementations. -/
def hostPortPairs (hosts : List String) (ports : List Nat) : List (String × Nat) :=
  hosts.flatMap (fun h => ports.map (fun p => (h, p)))

/-- The discovery sweep shared by both layers: walk the pairs in order,
return the first pair whose probe is 2xx; non-2xx and thrown errors both
fall through to the next pair.  Also returns the list of pairs actually
probed. -/
def sweep (net : Net) : List (String × Nat) → Option Endpoint × List (String × Nat)
  | [] => (none, [])
  | (host, port) :: rest =>
    match net host port with
    | .ok => (some ⟨host, port⟩, [(host, port)])
    | _ =>
      let r := sweep net rest
      (r.1, (host, port) :: r.2)

namespace Content

/-- The cached result object of the content-script `detectAirNavX`: the
source caches the whole `\x7bsuccess, host?, port?, message\x7d` object,
for success and failure alike. -/
inductive RelayResult
  | found (e : Endpoint)
  | notFound
deriving DecidableEq

/-- `CACHE_DURATION` of the content script: 30 seconds. -/
def CACHE_DURATION : Nat := 30000

/-- The mutable module-level cache of the content script:
`airnavxCache` (null modelled as `none`) and `airnavxCacheTimestamp`. -/
structure RelayCache where
  airnavxCache : Option RelayResult
  airnavxCacheTimestamp : Nat
deriving DecidableEq

/-- `candidatePorts` of the content script. -/
def candidatePorts : List Nat := [59720, 51798, 54320, 52000, 51800, 50000, 53000]

/-- `hostsToTest` of the content script. -/
def hostsToTest : List String := ["127.0.0.1", "localhost"]

/-- `detectAirNavX(detailed)` of the content script.  The `detailed`
parameter exists in the source but is never read.  If the cache holds any
result object and the timestamp is within `CACHE_DURATION`, the cached
object is returned and nothing is probed; otherwise the full sweep runs and
its result (success or failure) is cached with the current time. -/
def detectAirNavX (detailed : Bool) (st : RelayCache) (now : Nat) (net : Net) :
    RelayResult × RelayCache × List (String × Nat) :=
  if st.airnavxCache.isSome ∧ now - st.airnavxCacheTimestamp < CACHE_DURATION then
    (st.airnavxCache.getD .notFound, st, [])
  else
    match sweep net (hostPortPairs hostsToTest candidatePorts) with
    | (some e, log) =>
      (.found e, { airnavxCache := some (.found e), airnavxCacheTimestamp := now }, log)
    | (none, log) =>
      (.notFound, { airnavxCache := some .notFound, airnavxCacheTimestamp := now }, log)

end Content

namespace Background

/-- `AIRNAVX_CANDIDATE_PORTS` of the background worker. -/
def AIRNAVX_CANDIDATE_PORTS : List Nat := [59720, 51798, 54320, 52000, 50000, 53000]

/-- `AIRNAVX_HOSTS` of the background worker. -/
def AIRNAVX_HOSTS : List String := ["127.0.0.1", "localhost"]

/-- `CACHE_DURATION` of the background worker: 5 minutes. -/
def CACHE_DURATION : Nat := 5 * 60 * 1000

/-- Background worker state: `detectedAirNavX` (null modelled as `none`)
and `lastDetectionTime` (null modelled as `none`). -/
structure BgState where
  detectedAirNavX : Option Endpoint
  lastDetectionTime : Option Nat
deriving DecidableEq

/-- `detectAirNavX(forceRefresh)` of the background worker.  The cache is
consulted only when `forceRefresh` is false AND a detected endpoint is
stored AND a detection time is stored AND it is within `CACHE_DURATION`.
After a sweep, a success stores the endpoint while a failure stores `null`
(so failed sweeps are not served from the cache). -/
def detectAirNavX (forceRefresh : Bool) (st : BgState) (now : Nat) (net : Net) :
    Option Endpoint × BgState × List (String × Nat) :=
  if forceRefresh = false ∧ st.detectedAirNavX.isSome ∧ st.lastDetectionTime.isSome ∧
      now - st.lastDetectionTime.getD 0 < CACHE_DURATION then
    (st.detectedAirNavX, st, [])
  else
    match sweep net (hostPortPairs AIRNAVX_HOSTS AIRNAVX_CANDIDATE_PORTS) with
    | (some e, log) =>
      (some e, { detectedAirNavX := some e, lastDetectionTime := some now }, log)
    | (none, log) =>
      (none, { detectedAirNavX := none, lastDetectionTime := some now }, log)

end Background

/-- Outcome of one fallback attempt request in the content script: 2xx with
a JSON content type, 2xx with any other content type (still a success),
non-2xx, `AbortError` from the 10 s timeout, or another fetch error. -/
inductive AttemptOutcome
  | okJson (data : String)
  | okText (text : String)
  | httpErr (status : Nat) (statusText : String)
  | abortErr
  | netErr (message : String)
deriving DecidableEq

/-- The failure reason string recorded for an attempt outcome, or `none`
when the outcome is a success.  Mirrors the error-message construction in
the content-script fetch loop. -/
def attemptReason : AttemptOutcome → Option String
  | .okJson _ => none
  | .okText _ => none
  | .httpErr status statusText => some ("HTTP " ++ toString status ++ ": " ++ statusText)
  | .abortErr => some "Request timeout (10s)"
  | .netErr message => some message

/-- The payload delivered by a successful attempt outcome. -/
def okData : AttemptOutcome → String
  | .okJson data => data
  | .okText text => text
  | _ => ""

/-- One entry of the fallback attempt list: display name, target URL,
method, and optional JSON body. -/
structure AttemptSpec where
  name : String
  url : String
  method : HttpMethod
  body : Option JBody
deriving DecidableEq

namespace Content

/-- The static `attempts` array of the content-script `fetchContent`,
parameterised over the host `encodeURIComponent` function `enc` that the
source applies to the id. -/
def attempts (enc : String → String) (host : String) (port : Nat)
    (dataModuleId : String) : List AttemptSpec :=
  let base := "http://" ++ host ++ ":" ++ toString port
  [ { name := "GET with dataModuleId param",
      url := base ++ "/airnavx/api/dataModule/content?dataModuleId=" ++ enc dataModuleId,
      method := .GET, body := none },
    { name := "GET with all params",
      url := base ++ "/airnavx/api/dataModule/content?dataModuleId=" ++ enc dataModuleId
        ++ "&forHatch=false&forPrint=false",
      method := .GET, body := none },
    { name := "GET with dmCode param",
      url := base ++ "/airnavx/api/dataModule/content?dmCode=" ++ enc dataModuleId,
      method := .GET, body := none },
    { name := "GET with id param",
      url := base ++ "/airnavx/api/dataModule/content?id=" ++ enc dataModuleId,
      method := .GET, body := none },
    { name := "GET alternative endpoint",
      url := base ++ "/airnavx/api/content/" ++ enc dataModuleId,
      method := .GET, body := none },
    { name := "GET viewer endpoint",
      url := base ++ "/airnavx/api/viewer/content?dataModuleId=" ++ enc dataModuleId,
      method := .GET, body := none },
    { name := "POST with JSON body",
      url := base ++ "/airnavx/api/dataModule/content",
      method := .POST,
      body := some [("dataModuleId", .jstr dataModuleId),
                    ("forHatch", .jbool false), ("forPrint", .jbool false)] } ]

/-- Result of the content-script fallback loop: either the first successful
attempt with its payload and name, or the aggregate failure carrying every
recorded error line. -/
inductive FetchResult
  | success (data : String) (method : String)
  | allFailed (errors : List String)
deriving DecidableEq

/-- The `for` loop of the content-script `fetchContent`: try the specs in
order, where `outcome i` is the outcome of the request issued for the i-th
spec; on success return immediately, otherwise push
`name ++ ": " ++ reason` onto `errors` and continue.  Also returns the
names of the attempts actually issued. -/
def runAttempts (outcome : Nat → AttemptOutcome) :
    Nat → List String → List AttemptSpec → FetchResult × List String
  | _, errors, [] => (.allFailed errors, [])
  | i, errors, a :: rest =>
    match attemptReason (outcome i) with
    | none => (.success (okData (outcome i)) a.name, [a.name])
    | some reason =>
      let r := runAttempts outcome (i + 1) (errors ++ [a.name ++ ": " ++ reason]) rest
      (r.1, a.name :: r.2)

/-- Caller-visible result of the content-script `fetchContent`. -/
inductive RelayFetchResult
  | invalidArgument
  | serviceUnavailable
  | ok (data : String) (methodName : String)
  | aggregate (errors : List String)
deriving DecidableEq

/-- `fetchContent(dataModuleId)` of the content script: reject a falsy id
before anything else, then detect (through the shared cache), then walk the
attempt list.  Returns the result, the discovery probes issued, and the
names of the attempts issued. -/
def fetchContent (enc : String → String) (st : RelayCache) (now : Nat) (net : Net)
    (outcome : Nat → AttemptOutcome) (dataModuleId : String) :
    RelayFetchResult × List (String × Nat) × List String :=
  if dataModuleId = "" then (.invalidArgument, [], [])
  else
    match detectAirNavX false st now net with
    | (.notFound, _, probes) => (.serviceUnavailable, probes, [])
    | (.found e, _, probes) =>
      match runAttempts outcome 0 [] (attempts enc e.host e.port dataModuleId) with
      | (.success d n, issued) => (.ok d n, probes, issued)
      | (.allFailed errs, issued) => (.aggregate errs, probes, issued)

end Content

namespace Background

/-- `URLSearchParams(params).toString()` as used by `fetchFromAirNavX`,
with the key/value pairs already in string form. -/
def queryString (params : List (String × String)) : String :=
  String.intercalate "&" (params.map (fun kv => kv.1 ++ "=" ++ kv.2))

/-- The options object of `fetchFromAirNavX`, with the source defaults. -/
structure FetchOpts where
  method : HttpMethod := .GET
  params : List (String × String) := []
  body : Option JBody := none
  timeout : Nat := 30000
deriving DecidableEq

/-- The URL construction and body attachment of `fetchFromAirNavX`: the URL
is the detected endpoint plus the given path, with a query string appended
when `params` is non-empty; a body is attached exactly when the given body
is truthy (non-null, including the empty object) and the method is POST or
PUT. -/
def buildRequest (e : Endpoint) (endpoint : String) (o : FetchOpts) : HttpRequest :=
  let url := "http://" ++ e.host ++ ":" ++ toString e.port ++ endpoint
  let url := if o.params.length > 0 then url ++ "?" ++ queryString o.params else url
  let body := if o.body.isSome ∧ (o.method = .POST ∨ o.method = .PUT) then o.body else none
  { url := url, method := o.method, body := body }

/-- Outcome of the single HTTP request of `fetchFromAirNavX`. -/
inductive BgFetchOutcome
  | okJson (data : String)
  | httpErr (status : Nat) (statusText : String)
  | abortErr
  | netErr (message : String)
deriving DecidableEq

/-- A background response envelope: success with data, or failure with an
error message. -/
inductive BgResult
  | ok (data : String) (host : String) (port : Nat)
  | err (message : String)
deriving DecidableEq

/-- `fetchFromAirNavX(endpoint, options)`: detect (through the cache, no
force), fail when nothing was detected, otherwise issue exactly one request
built by `buildRequest`.  Returns the result, the updated state, the
discovery probes issued, and the HTTP requests issued. -/
def fetchFromAirNavX (st : BgState) (now : Nat) (net : Net) (outcome : BgFetchOutcome)
    (endpoint : String) (o : FetchOpts) :
    BgResult × BgState × List (String × Nat) × List HttpRequest :=
  match detectAirNavX false st now net with
  | (none, st2, probes) =>
    (.err "AirNavX not detected. Please ensure AirNavX is running.", st2, probes, [])
  | (some e, st2, probes) =>
    let req := buildRequest e endpoint o
    match outcome with
    | .okJson d => (.ok d e.host e.port, st2, probes, [req])
    | .httpErr status statusText =>
      (.err ("HTTP " ++ toString status ++ ": " ++ statusText), st2, probes, [req])
    | .abortErr => (.err "Request timeout - AirNavX not responding", st2, probes, [req])
    | .netErr message => (.err message, st2, probes, [req])

/-- `handleFetchContent`: reject a falsy id before any I/O, otherwise issue
one POST to the content endpoint with the id and fixed flags as query
params and an empty JSON object body. -/
def handleFetchContent (st : BgState) (now : Nat) (net : Net) (outcome : BgFetchOutcome)
    (dataModuleId : String) :
    BgResult × BgState × List (String × Nat) × List HttpRequest :=
  if dataModuleId = "" then (.err "dataModuleId required", st, [], [])
  else
    fetchFromAirNavX st now net outcome "/airnavx/api/dataModule/content"
      { method := .POST,
        params := [("dataModuleId", dataModuleId), ("forHatch", "false"),
                   ("forPrint", "false")],
        body := some [],
        timeout := 30000 }

end Background

namespace Content

/-- The message type tag the content-script listener accepts, built in the
source as the message tag constant concatenated with the request marker. -/
def requestType : String := "AIRNAVX_BRIDGE_REQUEST"

/-- The message type tag the content script posts back, built in the source
as the message tag constant concatenated with the response marker. -/
def responseType : String := "AIRNAVX_BRIDGE_RESPONSE"

/-- A request envelope as destructured by the content-script listener:
whether `event.source` was this window, plus the `type`, `method` and
`requestId` fields (`method` absent modelled as `none`). -/
structure Envelope where
  sameSource : Bool
  type : String
  method : Option String
  requestId : Nat
deriving DecidableEq

/-- A posted response envelope: the original request id with either a
result or an error message. -/
inductive Reply
  | ok (requestId : Nat) (result : String)
  | err (requestId : Nat) (message : String)
deriving DecidableEq

/-- The method names the content-script `switch` recognises. -/
def recognizedMethods : List String := ["detect", "search", "fetchContent"]

/-- The content-script message listener: drop foreign-source events, drop
non-request types, return without any response when `method` is falsy;
otherwise dispatch.  `exec` abstracts the recognised operations, returning
a result or a thrown error message; an unrecognised method throws
`Unknown method: ...`, and every throw is caught and posted back as an
error reply carrying the original request id.  `none` means no response
message is posted at all. -/
def setupMessageBridge (exec : String → Except String String) (ev : Envelope) :
    Option Reply :=
  if ev.sameSource = false then none
  else if ev.type ≠ requestType then none
  else if strTruthy ev.method = false then none
  else
    let m := ev.method.getD ""
    if m = "detect" ∨ m = "search" ∨ m = "fetchContent" then
      match exec m with
      | .ok r => some (.ok ev.requestId r)
      | .error e => some (.err ev.requestId e)
    else some (.err ev.requestId ("Unknown method: " ++ m))

end Content

namespace Background

/-- The action names the background `onMessage` switch recognises. -/
def recognizedActions : List String :=
  ["detect", "search", "fetchContent", "customFetch", "getStatus"]

/-- The background `chrome.runtime.onMessage` dispatcher: a recognised
action is delegated to its handler (abstracted by `handle`); any other
action is answered immediately with the `Unknown action` error envelope.
A response is always produced. -/
def onMessage (handle : String → BgResult) (action : String) : BgResult :=
  if action = "detect" ∨ action = "search" ∨ action = "fetchContent" ∨
      action = "customFetch" ∨ action = "getStatus" then
    handle action
  else .err "Unknown action"

end Background

namespace Injected

/-- The response type tag accepted by the page-side listener. -/
def responseType : String := "AIRNAVX_BRIDGE_RESPONSE"

/-- Page-side client state: the monotonically increasing `requestCounter`
and the set of request ids with a registered pending handler (the keys of
the `pendingRequests` map). -/
structure ClientState where
  requestCounter : Nat
  pendingRequests : Finset Nat
deriving DecidableEq

/-- `sendMessage(method, params)` of `injected.js`, restricted to its
bookkeeping: allocate the next request id, register it as pending, and
schedule the timeout.  Returns the new state, the allocated id, and the
scheduled timeout delay in milliseconds. -/
def sendMessage (st : ClientState) : ClientState × Nat × Nat :=
  let requestId := st.requestCounter + 1
  ({ requestCounter := requestId, pendingRequests := insert requestId st.pendingRequests },
   requestId, 30000)

/-- A response envelope as destructured by the page-side listener. -/
structure ResponseEnvelope where
  sameSource : Bool
  type : String
  requestId : Nat
  result : Option String
  error : Option String
deriving DecidableEq

/-- How a pending call finished: resolved with the relayed result, or
rejected with an error message. -/
inductive Completion
  | resolved (result : Option String)
  | rejected (message : String)
deriving DecidableEq

/-- The page-side message listener: ignore foreign-source events and
non-response types; a response whose id is pending settles that call
(reject when `error` is truthy, resolve otherwise) and removes the entry;
a response for an unknown id only logs a warning and changes nothing. -/
def handleResponse (st : ClientState) (ev : ResponseEnvelope) :
    ClientState × Option (Nat × Completion) :=
  if ev.sameSource = false then (st, none)
  else if ev.type ≠ responseType then (st, none)
  else if ev.requestId ∈ st.pendingRequests then
    ({ requestCounter := st.requestCounter,
       pendingRequests := st.pendingRequests.erase ev.requestId },
     some (ev.requestId,
       if strTruthy ev.error then .rejected (ev.error.getD "") else .resolved ev.result))
  else (st, none)

/-- The timeout callback scheduled by `sendMessage`: when the id is still
pending, remove it and reject with the timeout error; otherwise do
nothing. -/
def handleTimeout (st : ClientState) (requestId : Nat) :
    ClientState × Option (Nat × Completion) :=
  if requestId ∈ st.pendingRequests then
    ({ requestCounter := st.requestCounter,
       pendingRequests := st.pendingRequests.erase requestId },
     some (requestId, .rejected "Request timeout"))
  else (st, none)

end Injected

/-- The relay-layer candidate pair list, in probe order. -/
def relayPairs : List (String × Nat) :=
  hostPortPairs Content.hostsToTest Content.candidatePorts

/-- The coordinator-layer candidate pair list, in probe order. -/
def bgPairs : List (String × Nat) :=
  hostPortPairs Background.AIRNAVX_HOSTS Background.AIRNAVX_CANDIDATE_PORTS

/-- The error lines the content-script fetch loop records when every
attempt from position `i` on fails, in attempt order. -/
def attemptErrors (outcome : Nat → AttemptOutcome) :
    Nat → List AttemptSpec → List String
  | _, [] => []
  | i, a :: rest =>
    (a.name ++ ": " ++ ((attemptReason (outcome i)).getD "")) ::
      attemptErrors outcome (i + 1) rest

theorem attemptErrors_length (outcome : Nat → AttemptOutcome) :
    ∀ (specs : List AttemptSpec) (i : Nat),
      (attemptErrors outcome i specs).length = specs.length := by
  intro specs
  induction specs with
  | nil => intro i; rfl
  | cons a rest ih => intro i; simp [attemptErrors, ih]

theorem attemptErrors_getElem (outcome : Nat → AttemptOutcome) :
    ∀ (specs : List AttemptSpec) (i j : Nat) (hj : j < specs.length),
      (attemptErrors outcome i specs)[j]? =
        some (specs[j].name ++ ": " ++ ((attemptReason (outcome (i + j))).getD "")) := by
  intro specs
  induction specs with
  | nil => intro i j hj; exact absurd hj (Nat.not_lt_zero j)
  | cons a rest ih =>
    intro i j hj
    cases j with
    | zero => simp [attemptErrors]
    | succ j' =>
      have hj' : j' < rest.length := Nat.lt_of_succ_lt_succ hj
      have heq : i + (j' + 1) = (i + 1) + j' := by omega
      simp [attemptErrors, ih (i + 1) j' hj', heq]

theorem sweep_all_fail (net : Net) :
    ∀ pairs : List (String × Nat), (∀ p ∈ pairs, net p.1 p.2 ≠ .ok) →
      sweep net pairs = (none, pairs) := by
  intro pairs
  induction pairs with
  | nil => intro _; rfl
  | cons q rest ih =>
    intro h
    obtain ⟨qh, qp⟩ := q
    have hq : net qh qp ≠ .ok := h (qh, qp) (List.mem_cons_self _ _)
    have hr := ih (fun p hp => h p (List.mem_cons_of_mem _ hp))
    simp only [sweep]
    cases hnet : net qh qp with
    | ok => exact absurd hnet hq
    | httpFail => simp [hr]
    | netError => simp [hr]

theorem sweep_first_success (net : Net) :
    ∀ (pairs : List (String × Nat)) (k : Nat) (hk : k < pairs.length),
      net pairs[k].1 pairs[k].2 = .ok →
      (∀ j, (hj : j < k) → net (pairs.get ⟨j, Nat.lt_trans hj hk⟩).1
          (pairs.get ⟨j, Nat.lt_trans hj hk⟩).2 ≠ .ok) →
      sweep net pairs = (some ⟨pairs[k].1, pairs[k].2⟩, pairs.take (k + 1)) := by
  intro pairs
  induction pairs with
  | nil => intro k hk; exact absurd hk (Nat.not_lt_zero k)
  | cons q rest ih =>
    intro k hk hsucc hbefore
    obtain ⟨qh, qp⟩ := q
    cases k with
    | zero =>
      simp only [List.getElem_cons_zero] at hsucc
      simp only [sweep]
      rw [hsucc]
      simp
    | succ k' =>
      have hk' : k' < rest.length := Nat.lt_of_succ_lt_succ hk
      have h0 : net qh qp ≠ .ok := by
        have := hbefore 0 (Nat.succ_pos k')
        simpa using this
      have hsucc' : net rest[k'].1 rest[k'].2 = .ok := by
        simpa using hsucc
      have hbefore' : ∀ j, (hj : j < k') → net (rest.get ⟨j, Nat.lt_trans hj hk'⟩).1
          (rest.get ⟨j, Nat.lt_trans hj hk'⟩).2 ≠ .ok := by
        intro j hj
        have := hbefore (j + 1) (Nat.succ_lt_succ hj)
        simpa using this
      have hr := ih k' hk' hsucc' hbefore'
      simp only [sweep]
      cases hnet : net qh qp with
      | ok => exact absurd hnet h0
      | httpFail => simp [hr]
      | netError => simp [hr]

theorem sweep_log_ne_nil (net : Net) (q : String × Nat) (rest : List (String × Nat)) :
    (sweep net (q :: rest)).2 ≠ [] := by
  obtain ⟨qh, qp⟩ := q
  simp only [sweep]
  cases net qh qp <;> simp

theorem sweep_log_ne_nil_of_ne_nil (net : Net) (pairs : List (String × Nat))
    (h : pairs ≠ []) : (sweep net pairs).2 ≠ [] := by
  cases pairs with
  | nil => exact absurd rfl h
  | cons q rest => exact sweep_log_ne_nil net q rest

namespace Content

theorem runAttempts_all_fail (outcome : Nat → AttemptOutcome) :
    ∀ (specs : List AttemptSpec) (i : Nat) (errs : List String),
      (∀ j, j < specs.length → attemptReason (outcome (i + j)) ≠ none) →
      runAttempts outcome i errs specs =
        (.allFailed (errs ++ attemptErrors outcome i specs),
         specs.map AttemptSpec.name) := by
  intro specs
  induction specs with
  | nil => intro i errs _; simp [runAttempts, attemptErrors]
  | cons a rest ih =>
    intro i errs h
    have h0 : attemptReason (outcome i) ≠ none := by
      have := h 0 (by simp)
      simpa using this
    cases hr : attemptReason (outcome i) with
    | none => exact absurd hr h0
    | some reason =>
      have hrec := ih (i + 1) (errs ++ [a.name ++ ": " ++ reason]) (by
        intro j hj
        have hlt : j + 1 < (a :: rest).length := by simpa using Nat.succ_lt_succ hj
        have := h (j + 1) hlt
        have heq : i + (j + 1) = (i + 1) + j := by omega
        rwa [heq] at this)
      simp only [runAttempts, hr, hrec]
      simp [attemptErrors, hr]

theorem runAttempts_success (outcome : Nat → AttemptOutcome) :
    ∀ (specs : List AttemptSpec) (i : Nat) (errs : List String) (k : Nat)
      (hk : k < specs.length),
      attemptReason (outcome (i + k)) = none →
      (∀ j, j < k → attemptReason (outcome (i + j)) ≠ none) →
      runAttempts outcome i errs specs =
        (.success (okData (outcome (i + k))) specs[k].name,
         (specs.take (k + 1)).map AttemptSpec.name) := by
  intro specs
  induction specs with
  | nil => intro i errs k hk; exact absurd hk (Nat.not_lt_zero k)
  | cons a rest ih =>
    intro i errs k hk hsucc hbefore
    cases k with
    | zero =>
      simp only [Nat.add_zero] at hsucc
      simp only [runAttempts, hsucc]
      simp
    | succ k' =>
      have hk' : k' < rest.length := Nat.lt_of_succ_lt_succ hk
      have h0 : attemptReason (outcome i) ≠ none := by
        have := hbefore 0 (Nat.succ_pos k')
        simpa using this
      cases hr : attemptReason (outcome i) with
      | none => exact absurd hr h0
      | some reason =>
        have hsucc' : attemptReason (outcome ((i + 1) + k')) = none := by
          have heq : (i + 1) + k' = i + (k' + 1) := by omega
          rw [heq]; exact hsucc
        have hbefore' : ∀ j, j < k' → attemptReason (outcome ((i + 1) + j)) ≠ none := by
          intro j hj
          have := hbefore (j + 1) (Nat.succ_lt_succ hj)
          have heq : i + (j + 1) = (i + 1) + j := by omega
          rwa [heq] at this
        have hrec := ih (i + 1) (errs ++ [a.name ++ ": " ++ reason]) k' hk' hsucc' hbefore'
        simp only [runAttempts, hr, hrec]
        have heq : (i + 1) + k' = i + (k' + 1) := by omega
        simp [heq]

theorem relayDetect_cacheHit (d : Bool) (r : RelayResult) (ts now : Nat) (net : Net)
    (h : now - ts < CACHE_DURATION) :
    detectAirNavX d ⟨some r, ts⟩ now net = (r, ⟨some r, ts⟩, []) := by
  unfold detectAirNavX
  rw [if_pos ⟨by simp, h⟩]
  simp

theorem relayDetect_notFound (st : RelayCache) (now : Nat) (net : Net)
    (hmiss : st.airnavxCache = none)
    (hfail : ∀ p ∈ relayPairs, net p.1 p.2 ≠ .ok) :
    detectAirNavX false st now net = (.notFound, ⟨some .notFound, now⟩, relayPairs) := by
  unfold detectAirNavX
  rw [if_neg (by simp [hmiss])]
  have hs : sweep net (hostPortPairs hostsToTest candidatePorts) = (none, relayPairs) :=
    sweep_all_fail net _ (by simpa [relayPairs] using hfail)
  rw [hs]

end Content

namespace Background

theorem bgDetect_sweeps (fr : Bool) (st : BgState) (now : Nat) (net : Net)
    (h : ¬ (fr = false ∧ st.detectedAirNavX.isSome ∧ st.lastDetectionTime.isSome ∧
        now - st.lastDetectionTime.getD 0 < CACHE_DURATION)) :
    detectAirNavX fr st now net =
      ((sweep net bgPairs).1, ⟨(sweep net bgPairs).1, some now⟩, (sweep net bgPairs).2) := by
  unfold detectAirNavX
  rw [if_neg h]
  rcases hs : sweep net (hostPortPairs AIRNAVX_HOSTS AIRNAVX_CANDIDATE_PORTS) with ⟨o, log⟩
  have hs2 : sweep net bgPairs = (o, log) := by simpa [bgPairs] using hs
  cases o <;> simp [hs2]

theorem bgDetect_cacheHit (st : BgState) (e : Endpoint) (t now : Nat) (net : Net)
    (hd : st.detectedAirNavX = some e) (ht : st.lastDetectionTime = some t)
    (h : now - t < CACHE_DURATION) :
    detectAirNavX false st now net = (some e, st, []) := by
  unfold detectAirNavX
  rw [if_pos ⟨rfl, by simp [hd], by simp [ht], by simpa [ht] using h⟩]
  rw [hd]

end Background

/-! Concrete nets and stubs used in witnesses and counterexamples. -/

/-- A network where every probe throws (nothing is listening). -/
def netNone : Net := fun _ _ => .netError

/-- The concrete scenario of the spec: every probe is refused except
`127.0.0.1:51798`, which answers 2xx. -/
def netScenario : Net := fun host port =>
  if host = "127.0.0.1" ∧ port = 51798 then .ok else .netError

/-- An operation stub for the message-bridge dispatcher. -/
def execStub : String → Except String String := fun _ => .error "unused"

/-- The fetch-attempt oracle of the spec scenario: the first four requests
answer 404, the fifth answers 200 with a JSON body. -/
def outcomeScenario : Nat → AttemptOutcome := fun i =>
  if i < 4 then .httpErr 404 "Not Found" else .okJson "data"

/-- The content-script attempt list for the spec scenario, with the
identity in place of the host URI-encoding function. -/
def specsScenario : List AttemptSpec := Content.attempts id "127.0.0.1" 51798 "X"

/-! ## Claims -/

/-- Claim C8: hosts and ports are probed in the fixed listed order
(host-major, `relayPairs` spells the full order out); the first pair whose
probe succeeds ends the sweep, so the probed list is exactly the prefix up
to and including that pair; and when every pair fails the sweep — and each
detection layer on top of it — returns the NotFound value instead of
raising an exception. -/
theorem discovery_sweep_shortcircuit (net : Net) :
    relayPairs =
      [("127.0.0.1", 59720), ("127.0.0.1", 51798), ("127.0.0.1", 54320),
       ("127.0.0.1", 52000), ("127.0.0.1", 51800), ("127.0.0.1", 50000),
       ("127.0.0.1", 53000), ("localhost", 59720), ("localhost", 51798),
       ("localhost", 54320), ("localhost", 52000), ("localhost", 51800),
       ("localhost", 50000), ("localhost", 53000)] ∧
    (∀ (pairs : List (String × Nat)) (k : Nat) (hk : k < pairs.length),
      net pairs[k].1 pairs[k].2 = .ok →
      (∀ j, (hj : j < k) → net (pairs.get ⟨j, Nat.lt_trans hj hk⟩).1
          (pairs.get ⟨j, Nat.lt_trans hj hk⟩).2 ≠ .ok) →
      sweep net pairs = (some ⟨pairs[k].1, pairs[k].2⟩, pairs.take (k + 1))) ∧
    (∀ pairs : List (String × Nat), (∀ p ∈ pairs, net p.1 p.2 ≠ .ok) →
      sweep net pairs = (none, pairs)) ∧
    (∀ (st : Content.RelayCache) (now : Nat), st.airnavxCache = none →
      (∀ p ∈ relayPairs, net p.1 p.2 ≠ .ok) →
      Content.detectAirNavX false st now net =
        (.notFound, ⟨some .notFound, now⟩, relayPairs)) ∧
    (∀ (st : Background.BgState) (now : Nat), st.detectedAirNavX = none →
      (∀ p ∈ bgPairs, net p.1 p.2 ≠ .ok) →
      Background.detectAirNavX false st now net = (none, ⟨none, some now⟩, bgPairs)) := by
  refine ⟨by decide, sweep_first_success net, sweep_all_fail net, ?_, ?_⟩
  · intro st now hmiss hfail
    exact Content.relayDetect_notFound st now net hmiss hfail
  · intro st now hmiss hfail
    have hd := Background.bgDetect_sweeps false st now net (by simp [hmiss])
    have hs : sweep net bgPairs = (none, bgPairs) := sweep_all_fail net bgPairs hfail
    rw [hd, hs]

/-- Witness for C8, the concrete scenario of the spec: with only
`127.0.0.1:51798` answering, the sweep probes exactly the first two pairs
and stops. -/
theorem discovery_sweep_shortcircuit_witness :
    sweep netScenario relayPairs =
      (some ⟨"127.0.0.1", 51798⟩, [("127.0.0.1", 59720), ("127.0.0.1", 51798)]) := by
  have h := (discovery_sweep_shortcircuit netScenario).2.1 relayPairs 1 (by decide)
    (by decide) (by decide)
  exact h.trans (by decide)

/-- Claim C2 counterexample: the coordinator does not cache a NotFound
sweep.  With nothing listening, a first `probe(false)` ends NotFound and
stores null; a second `probe(false)` 1 s later — well inside the 5 min
validity window — probes the network again instead of answering from the
cache. -/
theorem coordinator_notfound_not_cached :
    (Background.detectAirNavX false ⟨none, none⟩ 0 netNone).1 = none ∧
    (Background.detectAirNavX false ⟨none, none⟩ 0 netNone).2.1 = ⟨none, some 0⟩ ∧
    1000 - 0 < Background.CACHE_DURATION ∧
    (Background.detectAirNavX false ⟨none, some 0⟩ 1000 netNone).2.2 ≠ [] := by decide

/-- Claim C2 (amended): at the relay both Found and NotFound sweeps are
cached and any probe within the 30 s window performs no network I/O — for
either value of the boolean argument, which is `detailed`, not a force
flag, so the relay has no cache bypass.  At the coordinator only Found
results are served from the cache: `probe(true)` always re-runs the sweep,
and after a NotFound sweep even `probe(false)` re-runs it (and a sweep
always probes at least one pair). -/
theorem probe_cache_semantics :
    (∀ (d : Bool) (r : Content.RelayResult) (ts now : Nat) (net : Net),
      now - ts < Content.CACHE_DURATION →
      Content.detectAirNavX d ⟨some r, ts⟩ now net = (r, ⟨some r, ts⟩, [])) ∧
    (∀ (st : Background.BgState) (e : Endpoint) (t now : Nat) (net : Net),
      st.detectedAirNavX = some e → st.lastDetectionTime = some t →
      now - t < Background.CACHE_DURATION →
      Background.detectAirNavX false st now net = (some e, st, [])) ∧
    (∀ (st : Background.BgState) (now : Nat) (net : Net),
      Background.detectAirNavX true st now net =
        ((sweep net bgPairs).1, ⟨(sweep net bgPairs).1, some now⟩,
         (sweep net bgPairs).2)) ∧
    (∀ (st : Background.BgState) (now : Nat) (net : Net), st.detectedAirNavX = none →
      Background.detectAirNavX false st now net =
        ((sweep net bgPairs).1, ⟨(sweep net bgPairs).1, some now⟩,
         (sweep net bgPairs).2)) ∧
    (∀ net : Net, (sweep net bgPairs).2 ≠ []) := by
  refine ⟨Content.relayDetect_cacheHit, Background.bgDetect_cacheHit, ?_, ?_, ?_⟩
  · intro st now net
    exact Background.bgDetect_sweeps true st now net (by simp)
  · intro st now net hmiss
    exact Background.bgDetect_sweeps false st now net (by simp [hmiss])
  · intro net
    exact sweep_log_ne_nil_of_ne_nil net bgPairs (by decide)

/-- Witness for C2 (amended): a cached Found result within the window is
served without any probe, at both layers. -/
theorem probe_cache_semantics_witness :
    Content.detectAirNavX false ⟨some (.found ⟨"127.0.0.1", 51798⟩), 0⟩ 1000 netNone =
      (.found ⟨"127.0.0.1", 51798⟩, ⟨some (.found ⟨"127.0.0.1", 51798⟩), 0⟩, []) ∧
    Background.detectAirNavX false ⟨some ⟨"127.0.0.1", 51798⟩, some 0⟩ 1000 netNone =
      (some ⟨"127.0.0.1", 51798⟩, ⟨some ⟨"127.0.0.1", 51798⟩, some 0⟩, []) :=
  ⟨probe_cache_semantics.1 false (.found ⟨"127.0.0.1", 51798⟩) 0 1000 netNone (by decide),
   probe_cache_semantics.2.1 ⟨some ⟨"127.0.0.1", 51798⟩, some 0⟩ ⟨"127.0.0.1", 51798⟩
     0 1000 netNone rfl rfl (by decide)⟩

/-- Claim C1 counterexample: the two paths are not identical.  The relay
probes seven candidate ports while the coordinator probes six (51800 is
missing), and for the same fetch-by-id input the relay walks a seven-entry
attempt list while the coordinator issues exactly one request. -/
theorem relay_coordinator_algorithms_differ :
    Content.candidatePorts ≠ Background.AIRNAVX_CANDIDATE_PORTS ∧
    (Content.attempts id "127.0.0.1" 51798 "X").length = 7 ∧
    (Background.handleFetchContent ⟨some ⟨"127.0.0.1", 51798⟩, some 0⟩ 0 netNone
        (.httpErr 404 "Not Found") "X").2.2.2.length = 1 := by decide

/-- Claim C1 (amended): the two paths share the host list and the relative
port order — the coordinator port list is the relay list with 51800
removed — and the cache windows differ (30 s against 5 min); but the
fetch-by-id algorithms differ structurally: the relay walks seven fallback
attempts while the coordinator issues at most one request, always a
POST. -/
theorem relay_coordinator_shared_and_divergent_structure :
    Content.hostsToTest = Background.AIRNAVX_HOSTS ∧
    Background.AIRNAVX_CANDIDATE_PORTS = Content.candidatePorts.erase 51800 ∧
    Content.CACHE_DURATION = 30000 ∧
    Background.CACHE_DURATION = 300000 ∧
    (∀ (enc : String → String) (host : String) (port : Nat) (m : String),
      (Content.attempts enc host port m).length = 7) ∧
    (∀ (st : Background.BgState) (now : Nat) (net : Net)
       (oc : Background.BgFetchOutcome) (m : String),
      (Background.handleFetchContent st now net oc m).2.2.2.length ≤ 1 ∧
      ∀ r ∈ (Background.handleFetchContent st now net oc m).2.2.2,
        r.method = HttpMethod.POST) := by
  refine ⟨by decide, by decide, rfl, rfl, fun enc host port m => rfl, ?_⟩
  intro st now net oc m
  unfold Background.handleFetchContent
  by_cases hm : m = ""
  · simp [hm]
  · rw [if_neg hm]
    unfold Background.fetchFromAirNavX
    rcases hd : Background.detectAirNavX false st now net with ⟨o, st2, probes⟩
    cases o with
    | none => simp
    | some e => cases oc <;> simp [Background.buildRequest]

/-- Witness for C1 (amended): the coordinator fetch-by-id issues exactly
one request, a POST, on a concrete cached-endpoint state. -/
theorem relay_coordinator_structure_witness :
    (Background.handleFetchContent ⟨some ⟨"127.0.0.1", 51798⟩, some 0⟩ 0 netNone
        (.okJson "d") "X").2.2.2.length ≤ 1 :=
  (relay_coordinator_shared_and_divergent_structure.2.2.2.2.2
    ⟨some ⟨"127.0.0.1", 51798⟩, some 0⟩ 0 netNone (.okJson "d") "X").1

/-- Claim C3: in the content-script fallback loop over any attempt list,
a success at position k stops the loop — only attempts 0..k are issued —
and when every attempt fails the loop ends in the aggregate failure whose
error list has exactly one `name: reason` line per attempt, in attempt
order. -/
theorem fetchContent_shortcircuit_and_aggregate (outcome : Nat → AttemptOutcome)
    (specs : List AttemptSpec) :
    (∀ (k : Nat) (hk : k < specs.length),
      attemptReason (outcome k) = none →
      (∀ j, j < k → attemptReason (outcome j) ≠ none) →
      Content.runAttempts outcome 0 [] specs =
        (.success (okData (outcome k)) specs[k].name,
         (specs.take (k + 1)).map AttemptSpec.name)) ∧
    ((∀ j, j < specs.length → attemptReason (outcome j) ≠ none) →
      ∃ errs,
        Content.runAttempts outcome 0 [] specs =
          (.allFailed errs, specs.map AttemptSpec.name) ∧
        errs.length = specs.length ∧
        ∀ j, (hj : j < specs.length) →
          errs[j]? = some (specs[j].name ++ ": " ++
            ((attemptReason (outcome j)).getD ""))) := by
  constructor
  · intro k hk hsucc hbefore
    have h := Content.runAttempts_success outcome specs 0 [] k hk
      (by simpa using hsucc) (by intro j hj; simpa using hbefore j hj)
    simpa using h
  · intro hfail
    refine ⟨attemptErrors outcome 0 specs, ?_, attemptErrors_length outcome specs 0, ?_⟩
    · have h := Content.runAttempts_all_fail outcome specs 0 []
        (by intro j hj; simpa using hfail j hj)
      simpa using h
    · intro j hj
      have h := attemptErrors_getElem outcome specs 0 j hj
      simpa using h

/-- Witness for C3, the concrete scenario of the spec: the first four GET
variants answer 404 and the fifth answers 200 with JSON, so the loop stops
after five attempts and reports the fifth attempt name. -/
theorem fetchContent_shortcircuit_witness :
    Content.runAttempts outcomeScenario 0 [] specsScenario =
      (.success "data" "GET alternative endpoint",
       ["GET with dataModuleId param", "GET with all params", "GET with dmCode param",
        "GET with id param", "GET alternative endpoint"]) := by
  have h := (fetchContent_shortcircuit_and_aggregate outcomeScenario specsScenario).1 4
    (by decide) (by decide) (by decide)
  exact h.trans (by decide)

/-- Claim C4: the static fetch-by-id attempt list is ordered exactly as
described — four GETs with the id under the query-param names
`dataModuleId` (bare, then with the extra flags), `dmCode` and `id`, then a
GET with the id as a path segment on the alternative route, then a GET on
the viewer-scoped route, and finally a POST with a JSON body holding the id
and the fixed flags. -/
theorem attempts_order_spec (enc : String → String) (host : String) (port : Nat)
    (dataModuleId : String) :
    (Content.attempts enc host port dataModuleId).map (fun a => (a.name, a.method)) =
      [("GET with dataModuleId param", .GET), ("GET with all params", .GET),
       ("GET with dmCode param", .GET), ("GET with id param", .GET),
       ("GET alternative endpoint", .GET), ("GET viewer endpoint", .GET),
       ("POST with JSON body", .POST)] ∧
    (Content.attempts enc host port dataModuleId).map AttemptSpec.url =
      ["http://" ++ host ++ ":" ++ toString port ++
         "/airnavx/api/dataModule/content?dataModuleId=" ++ enc dataModuleId,
       "http://" ++ host ++ ":" ++ toString port ++
         "/airnavx/api/dataModule/content?dataModuleId=" ++ enc dataModuleId ++
         "&forHatch=false&forPrint=false",
       "http://" ++ host ++ ":" ++ toString port ++
         "/airnavx/api/dataModule/content?dmCode=" ++ enc dataModuleId,
       "http://" ++ host ++ ":" ++ toString port ++
         "/airnavx/api/dataModule/content?id=" ++ enc dataModuleId,
       "http://" ++ host ++ ":" ++ toString port ++
         "/airnavx/api/content/" ++ enc dataModuleId,
       "http://" ++ host ++ ":" ++ toString port ++
         "/airnavx/api/viewer/content?dataModuleId=" ++ enc dataModuleId,
       "http://" ++ host ++ ":" ++ toString port ++ "/airnavx/api/dataModule/content"] ∧
    (Content.attempts enc host port dataModuleId).map AttemptSpec.body =
      [none, none, none, none, none, none,
       some [("dataModuleId", .jstr dataModuleId), ("forHatch", .jbool false),
             ("forPrint", .jbool false)]] :=
  ⟨rfl, rfl, rfl⟩

/-- Claim C9: an empty id is rejected with the invalid-argument error
before discovery and before any HTTP attempt, on both paths: no probe and
no request is issued. -/
theorem empty_id_no_network :
    (∀ (enc : String → String) (st : Content.RelayCache) (now : Nat) (net : Net)
       (outcome : Nat → AttemptOutcome),
      Content.fetchContent enc st now net outcome "" = (.invalidArgument, [], [])) ∧
    (∀ (st : Background.BgState) (now : Nat) (net : Net)
       (outcome : Background.BgFetchOutcome),
      Background.handleFetchContent st now net outcome "" =
        (.err "dataModuleId required", st, [], [])) :=
  ⟨fun _ _ _ _ _ => rfl, fun _ _ _ _ => rfl⟩

/-- Claim C7 counterexample: an empty JSON object body is still attached.
With exactly the options `handleFetchContent` passes — POST with
`body = \x7b\x7d` — the built request carries the (empty) body, although
the claim allows a body only when it is non-empty. -/
theorem empty_body_still_attached :
    (Background.buildRequest ⟨"127.0.0.1", 51798⟩ "/airnavx/api/dataModule/content"
        { method := .POST,
          params := [("dataModuleId", "X"), ("forHatch", "false"), ("forPrint", "false")],
          body := some [], timeout := 30000 }).body = some [] := by decide

/-- Claim C7 (amended): the pass-through call builds the URL from the
discovered endpoint plus the path, appending the query string exactly when
parameters are given, and attaches the JSON body exactly when the body
value is non-null — even the empty object — and the method is POST or PUT;
for every other combination no body is attached. -/
theorem buildRequest_characterization (e : Endpoint) (endpoint : String)
    (o : Background.FetchOpts) :
    Background.buildRequest e endpoint o =
      { url := "http://" ++ e.host ++ ":" ++ toString e.port ++ endpoint ++
          (if o.params.length > 0 then "?" ++ Background.queryString o.params else ""),
        method := o.method,
        body := if o.body.isSome ∧ (o.method = .POST ∨ o.method = .PUT)
                then o.body else none } := by
  unfold Background.buildRequest
  by_cases hp : o.params.length > 0
  · simp [hp, String.append_assoc]
  · simp [hp]

namespace Injected

theorem handleResponse_not_pending (st : ClientState) (ev : ResponseEnvelope)
    (h : ev.requestId ∉ st.pendingRequests) : handleResponse st ev = (st, none) := by
  unfold handleResponse
  by_cases hs : ev.sameSource = false
  · rw [if_pos hs]
  · rw [if_neg hs]
    by_cases ht : ev.type ≠ responseType
    · rw [if_pos ht]
    · rw [if_neg ht, if_neg h]

theorem handleResponse_pending (st : ClientState) (ev : ResponseEnvelope)
    (hs : ev.sameSource = true) (ht : ev.type = responseType)
    (hmem : ev.requestId ∈ st.pendingRequests) :
    handleResponse st ev =
      ({ requestCounter := st.requestCounter,
         pendingRequests := st.pendingRequests.erase ev.requestId },
       some (ev.requestId,
         if strTruthy ev.error then .rejected (ev.error.getD "")
         else .resolved ev.result)) := by
  unfold handleResponse
  rw [if_neg (by simp [hs]), if_neg (by simp [ht]), if_pos hmem]

theorem handleResponse_not_source_or_type (st : ClientState) (ev : ResponseEnvelope)
    (h : ev.sameSource = false ∨ ev.type ≠ responseType) :
    handleResponse st ev = (st, none) := by
  unfold handleResponse
  by_cases hs : ev.sameSource = false
  · rw [if_pos hs]
  · rw [if_neg hs]
    rcases h with h | h
    · exact absurd h hs
    · rw [if_pos h]

theorem handleTimeout_pending (st : ClientState) (requestId : Nat)
    (h : requestId ∈ st.pendingRequests) :
    handleTimeout st requestId =
      ({ requestCounter := st.requestCounter,
         pendingRequests := st.pendingRequests.erase requestId },
       some (requestId, .rejected "Request timeout")) := by
  unfold handleTimeout
  rw [if_pos h]

theorem handleTimeout_not_pending (st : ClientState) (requestId : Nat)
    (h : requestId ∉ st.pendingRequests) : handleTimeout st requestId = (st, none) := by
  unfold handleTimeout
  rw [if_neg h]

end Injected

/-- Claim C5: a call issued by the page-side client is settled by a
matching reply or by the 30 s timeout, whichever comes first.
`sendMessage` registers the fresh id and schedules 30000 ms; the timeout on
a still-pending id removes it and rejects with the timeout error; a reply
for an id that is not pending is discarded without touching any state; and
each side, once it fires, removes the id so the other side is a no-op —
the call is settled exactly once. -/
theorem pending_call_reply_or_timeout :
    (∀ st : Injected.ClientState,
      (Injected.sendMessage st).2.2 = 30000 ∧
      (Injected.sendMessage st).2.1 = st.requestCounter + 1 ∧
      (Injected.sendMessage st).2.1 ∈ ((Injected.sendMessage st).1).pendingRequests) ∧
    (∀ (st : Injected.ClientState) (id : Nat), id ∈ st.pendingRequests →
      Injected.handleTimeout st id =
        ({ requestCounter := st.requestCounter,
           pendingRequests := st.pendingRequests.erase id },
         some (id, .rejected "Request timeout"))) ∧
    (∀ (st : Injected.ClientState) (ev : Injected.ResponseEnvelope),
      ev.requestId ∉ st.pendingRequests → Injected.handleResponse st ev = (st, none)) ∧
    (∀ (st : Injected.ClientState) (ev : Injected.ResponseEnvelope),
      ev.sameSource = true → ev.type = Injected.responseType →
      ev.requestId ∈ st.pendingRequests →
      ev.requestId ∉ ((Injected.handleResponse st ev).1).pendingRequests ∧
      Injected.handleTimeout ((Injected.handleResponse st ev).1) ev.requestId =
        ((Injected.handleResponse st ev).1, none)) ∧
    (∀ (st : Injected.ClientState) (id : Nat) (ev : Injected.ResponseEnvelope),
      id ∈ st.pendingRequests → ev.requestId = id →
      Injected.handleResponse ((Injected.handleTimeout st id).1) ev =
        ((Injected.handleTimeout st id).1, none)) := by
  refine ⟨?_, Injected.handleTimeout_pending, Injected.handleResponse_not_pending, ?_, ?_⟩
  · intro st
    refine ⟨rfl, rfl, ?_⟩
    simp [Injected.sendMessage]
  · intro st ev hs ht hmem
    rw [Injected.handleResponse_pending st ev hs ht hmem]
    exact ⟨Finset.not_mem_erase _ _,
      Injected.handleTimeout_not_pending _ _ (Finset.not_mem_erase _ _)⟩
  · intro st id ev hmem heq
    rw [Injected.handleTimeout_pending st id hmem]
    exact Injected.handleResponse_not_pending _ ev (by rw [heq]; exact Finset.not_mem_erase _ _)

/-- Witness for C5: on concrete states, the timeout on a pending id rejects
and removes it, and a reply for an unknown id changes nothing. -/
theorem pending_call_reply_or_timeout_witness :
    Injected.handleTimeout ⟨1, {1}⟩ 1 =
      ({ requestCounter := 1, pendingRequests := ({1} : Finset Nat).erase 1 },
       some (1, .rejected "Request timeout")) ∧
    Injected.handleResponse ⟨1, {1}⟩
        { sameSource := true, type := "AIRNAVX_BRIDGE_RESPONSE", requestId := 2,
          result := none, error := none } =
      (⟨1, {1}⟩, none) :=
  ⟨pending_call_reply_or_timeout.2.1 ⟨1, {1}⟩ 1 (by decide),
   pending_call_reply_or_timeout.2.2.1 ⟨1, {1}⟩
     { sameSource := true, type := "AIRNAVX_BRIDGE_RESPONSE", requestId := 2,
       result := none, error := none } (by decide)⟩

/-- Claim C6 counterexample: a request whose method is the empty string —
a method name that is not one of the recognized operations — gets no reply
at all from the content-script relay: the listener returns before dispatch,
so the claimed error reply is never sent. -/
theorem empty_method_silent_counterexample :
    "" ∉ Content.recognizedMethods ∧
    Content.setupMessageBridge execStub
      { sameSource := true, type := Content.requestType, method := some "",
        requestId := 1 } = none := by decide

/-- Claim C6 (amended): a received request whose method name is present and
non-empty but not one of the recognized operations gets an error reply
`Unknown method: ...` bearing the original correlation id from the relay;
the coordinator answers every unrecognized action name — even an absent
one — with the `Unknown action` error reply.  Only a falsy method at the
relay is answered with silence. -/
theorem unknown_method_error_reply :
    (∀ (exec : String → Except String String) (ev : Content.Envelope) (m : String),
      ev.sameSource = true → ev.type = Content.requestType → ev.method = some m →
      m ≠ "" → m ∉ Content.recognizedMethods →
      Content.setupMessageBridge exec ev =
        some (.err ev.requestId ("Unknown method: " ++ m))) ∧
    (∀ (handle : String → Background.BgResult) (action : String),
      action ∉ Background.recognizedActions →
      Background.onMessage handle action = .err "Unknown action") := by
  constructor
  · intro exec ev m hs ht hm hne hnr
    have hnr2 : ¬ (m = "detect" ∨ m = "search" ∨ m = "fetchContent") := by
      simpa [Content.recognizedMethods] using hnr
    have hempty : m.isEmpty = false := by
      rcases h : m.isEmpty with _ | _
      · rfl
      · exact absurd ((String.isEmpty_iff m).mp h) hne
    unfold Content.setupMessageBridge
    rw [if_neg (by simp [hs]), if_neg (by simp [ht]),
      if_neg (by simp [hm, strTruthy, hempty]), hm]
    simp only [Option.getD_some]
    rw [if_neg hnr2]
  · intro handle action h
    have h2 : ¬ (action = "detect" ∨ action = "search" ∨ action = "fetchContent" ∨
        action = "customFetch" ∨ action = "getStatus") := by
      simpa [Background.recognizedActions] using h
    unfold Background.onMessage
    rw [if_neg h2]

/-- Witness for C6 (amended): a concrete unrecognized non-empty method gets
the unknown-method error reply with its correlation id, and the coordinator
answers an unknown action with the error envelope. -/
theorem unknown_method_error_reply_witness :
    Content.setupMessageBridge execStub
      { sameSource := true, type := Content.requestType, method := some "bogus",
        requestId := 9 } = some (.err 9 ("Unknown method: " ++ "bogus")) ∧
    Background.onMessage (fun _ => .err "h") "bogus" = .err "Unknown action" :=
  ⟨unknown_method_error_reply.1 execStub
      { sameSource := true, type := Content.requestType, method := some "bogus",
        requestId := 9 } "bogus" rfl rfl rfl (by decide) (by decide),
   unknown_method_error_reply.2 (fun _ => .err "h") "bogus" (by decide)⟩

/-- Claim C10: a request envelope whose method is absent or falsy makes the
content-script relay return before dispatch — no response envelope is ever
posted — so the page-side pending call for that correlation id can only be
settled by its own timeout: `sendMessage` schedules 30000 ms, any response
for a different id leaves the id pending, and the timeout callback settles
it with the timeout rejection. -/
theorem falsy_method_silence_timeout :
    (∀ (exec : String → Except String String) (ev : Content.Envelope),
      ev.sameSource = true → ev.type = Content.requestType →
      strTruthy ev.method = false →
      Content.setupMessageBridge exec ev = none) ∧
    (∀ st : Injected.ClientState, (Injected.sendMessage st).2.2 = 30000) ∧
    (∀ (st : Injected.ClientState) (id : Nat) (ev : Injected.ResponseEnvelope),
      id ∈ st.pendingRequests → ev.requestId ≠ id →
      id ∈ ((Injected.handleResponse st ev).1).pendingRequests) ∧
    (∀ (st : Injected.ClientState) (id : Nat), id ∈ st.pendingRequests →
      (Injected.handleTimeout st id).2 = some (id, .rejected "Request timeout")) := by
  refine ⟨?_, fun st => rfl, ?_, ?_⟩
  · intro exec ev hs ht hfalsy
    unfold Content.setupMessageBridge
    rw [if_neg (by simp [hs]), if_neg (by simp [ht]), if_pos hfalsy]
  · intro st id ev hmem hne
    by_cases hp : ev.requestId ∈ st.pendingRequests
    · by_cases hs : ev.sameSource = true
      · by_cases ht : ev.type = Injected.responseType
        · rw [Injected.handleResponse_pending st ev hs ht hp]
          exact Finset.mem_erase.2 ⟨fun h => hne h.symm, hmem⟩
        · rw [Injected.handleResponse_not_source_or_type st ev (Or.inr ht)]
          exact hmem
      · rw [Injected.handleResponse_not_source_or_type st ev
          (Or.inl (by revert hs; cases ev.sameSource <;> simp))]
        exact hmem
    · rw [Injected.handleResponse_not_pending st ev hp]
      exact hmem
  · intro st id hmem
    rw [Injected.handleTimeout_pending st id hmem]

/-- Witness for C10: a concrete absent-method request gets no response, and
the timeout settles a concrete pending call with the timeout rejection. -/
theorem falsy_method_silence_timeout_witness :
    Content.setupMessageBridge execStub
      { sameSource := true, type := Content.requestType, method := none,
        requestId := 3 } = none ∧
    (Injected.handleTimeout ⟨3, {3}⟩ 3).2 = some (3, .rejected "Request timeout") :=
  ⟨falsy_method_silence_timeout.1 execStub
      { sameSource := true, type := Content.requestType, method := none,
        requestId := 3 } rfl rfl rfl,
   falsy_method_silence_timeout.2.2.2 ⟨3, {3}⟩ 3 (by decide)⟩

end AirNavX
